import Mathlib

/-!
Shallow embedding of the mdconfig crate (src/lib.rs): a builder for FreeBSD
md(4) memory-disk devices and a handle type that detaches the device when it
is dropped.  The kernel side of each ioctl is modelled as an explicit
`Kernel` parameter; errno values are modelled as `Nat`.
-/

set_option maxRecDepth 8192

namespace Mdconfig

/-! ### ABI constants

The crate obtains these from bindgen-generated ffi modules (`ffi64`/`ffi32`)
that are not part of `src/`.  They are modelled here from the spec's external
interface table: the option flags are independently togglable bits of a
32-bit mask, the type discriminants are distinct small integers, and the
fixed path/label buffers have the platform's maximum path length. -/

/-- Modelled from the spec: ABI version tag, a constant (exact value is an
ABI detail outside src/; no claim depends on it). -/
def MDIOVERSION : Nat := 0

/-- Modelled from the spec: cluster-mode option bit. -/
def MD_CLUSTER : Nat := 0x01

/-- Modelled from the spec: reserve-all-storage option bit. -/
def MD_RESERVE : Nat := 0x02

/-- Modelled from the spec: auto-assign-unit option bit. -/
def MD_AUTOUNIT : Nat := 0x04

/-- Modelled from the spec: read-only option bit. -/
def MD_READONLY : Nat := 0x08

/-- Modelled from the spec: compression option bit. -/
def MD_COMPRESS : Nat := 0x10

/-- Modelled from the spec: force option bit (used by detach and resize). -/
def MD_FORCE : Nat := 0x20

/-- Modelled from the spec: async-writes option bit. -/
def MD_ASYNC : Nat := 0x40

/-- Modelled from the spec: verify-backing-file option bit. -/
def MD_VERIFY : Nat := 0x80

/-- Modelled from the spec: read-cache option bit. -/
def MD_CACHE : Nat := 0x100

/-- Modelled from the spec: must-deallocate-on-delete option bit. -/
def MD_MUSTDEALLOC : Nat := 0x200

/-- Modelled from the spec: backing-kind discriminant for anonymous memory. -/
def md_types_MD_MALLOC : Nat := 0

/-- Modelled from the spec: backing-kind discriminant for a file (vnode). -/
def md_types_MD_VNODE : Nat := 2

/-- Modelled from the spec: backing-kind discriminant for swap. -/
def md_types_MD_SWAP : Nat := 3

/-- Modelled from the spec: backing-kind discriminant for the null sink. -/
def md_types_MD_NULL : Nat := 4

/-- Modelled from the spec: the platform's maximum path length, the capacity
of the fixed null-padded path and label buffers (1024 on FreeBSD). -/
def PATH_MAX : Nat := 1024

/-- Modelled from the spec: length of the reserved padding field of the
control record (exact value is an ABI detail outside src/). -/
def MDNPAD : Nat := 96

/-- Bitwise complement within a 32-bit word: embeds Rust's `!mask` on `u32`
(all masks used are below 2^32). -/
def u32not (m : Nat) : Nat := (2 ^ 32 - 1) ^^^ m

/-- Two's-complement reinterpretation of an unsigned 64-bit value as a
signed 64-bit value: embeds Rust's `as i64` cast. -/
def u64_to_i64 (n : Nat) : Int :=
  if n % 2 ^ 64 < 2 ^ 63 then ((n % 2 ^ 64 : Nat) : Int)
  else ((n % 2 ^ 64 : Nat) : Int) - 2 ^ 64

/-! ### The control record

`md_ioctl` embeds the fixed binary record exchanged with the kernel.
Byte buffers reached through pointers (`md_file`, `md_label`) are modelled
as `Option (List Nat)`, with `none` standing for a null pointer. -/

/-- The fixed control record passed to the attach/detach/resize ioctls
(struct `md_ioctl` of the ffi module, as populated by src/lib.rs). -/
structure md_ioctl where
  md_version : Nat
  md_unit : Nat
  md_type : Nat
  md_file : Option (List Nat)
  md_mediasize : Int
  md_sectorsize : Nat
  md_options : Nat
  md_base : Nat
  md_fwheads : Int
  md_fwsectors : Int
  md_label : Option (List Nat)
  md_pad : List Nat
deriving Repr, DecidableEq

/-- Embeds `Vec::resize(n, 0)` after `extend_from_slice(v)` on a fresh
vector: pad with zeros up to `n`, or truncate to `n` when `v` is longer. -/
def padResize (v : List Nat) (n : Nat) : List Nat :=
  if v.length ≤ n then v ++ List.replicate (n - v.length) 0 else v.take n

/-! ### The Builder -/

/-- The configuration builder (struct `Builder` of src/lib.rs).  `filename`
holds the backing path for vnode devices; `label` holds the already
null-padded label buffer. -/
structure Builder where
  filename : Option (List Nat)
  label : Option (List Nat)
  mdio : md_ioctl
deriving Repr, DecidableEq

/-- Embeds `Builder::new`: the base record, with auto-unit and compression
enabled by default. -/
def Builder.new : Builder :=
  { filename := none
    label := none
    mdio :=
      { md_version := MDIOVERSION
        md_unit := 0
        md_type := 0
        md_file := none
        md_mediasize := 0
        md_sectorsize := 0
        md_options := MD_AUTOUNIT ||| MD_COMPRESS
        md_base := 0
        md_fwheads := 0
        md_fwsectors := 0
        md_label := none
        md_pad := List.replicate MDNPAD 0 } }

/-- Embeds `Builder::malloc(size: u64)`. -/
def Builder.malloc (size : Nat) : Builder :=
  let b := Builder.new
  { b with mdio := { b.mdio with
      md_type := md_types_MD_MALLOC
      md_mediasize := u64_to_i64 size } }

/-- Embeds `Builder::null(size: u64)`. -/
def Builder.null (size : Nat) : Builder :=
  let b := Builder.new
  { b with mdio := { b.mdio with
      md_type := md_types_MD_NULL
      md_mediasize := u64_to_i64 size } }

/-- Embeds `Builder::vnode(path)`: records the backing path and adds the
cluster option. -/
def Builder.vnode (path : List Nat) : Builder :=
  let b := Builder.new
  { b with
    filename := some path
    mdio := { b.mdio with
      md_type := md_types_MD_VNODE
      md_options := b.mdio.md_options ||| MD_CLUSTER } }

/-- Embeds `Builder::swap(size: u64)`: like malloc but swap-backed, and adds
the cluster option. -/
def Builder.swap (size : Nat) : Builder :=
  let b := Builder.new
  { b with mdio := { b.mdio with
      md_type := md_types_MD_SWAP
      md_mediasize := u64_to_i64 size
      md_options := b.mdio.md_options ||| MD_CLUSTER } }

/-- Embeds the common shape of the option-flag builder methods: set the mask
on `true` (`|=`), clear it on `false` (`&= !mask`). -/
def Builder.setOpt (b : Builder) (mask : Nat) (x : Bool) : Builder :=
  if x then { b with mdio := { b.mdio with md_options := b.mdio.md_options ||| mask } }
  else { b with mdio := { b.mdio with md_options := b.mdio.md_options &&& u32not mask } }

/-- Embeds `Builder::async_`. -/
def Builder.async_ (b : Builder) (x : Bool) : Builder := b.setOpt MD_ASYNC x

/-- Embeds `Builder::cache`. -/
def Builder.cache (b : Builder) (x : Bool) : Builder := b.setOpt MD_CACHE x

/-- Embeds `Builder::compress`. -/
def Builder.compress (b : Builder) (x : Bool) : Builder := b.setOpt MD_COMPRESS x

/-- Embeds `Builder::mustdealloc`. -/
def Builder.mustdealloc (b : Builder) (x : Bool) : Builder := b.setOpt MD_MUSTDEALLOC x

/-- Embeds `Builder::reserve`. -/
def Builder.reserve (b : Builder) (x : Bool) : Builder := b.setOpt MD_RESERVE x

/-- Embeds `Builder::readonly`. -/
def Builder.readonly (b : Builder) (x : Bool) : Builder := b.setOpt MD_READONLY x

/-- Embeds `Builder::verify`. -/
def Builder.verify (b : Builder) (x : Bool) : Builder := b.setOpt MD_VERIFY x

/-- Embeds `Builder::heads_per_cylinder`. -/
def Builder.heads_per_cylinder (b : Builder) (heads : Int) : Builder :=
  { b with mdio := { b.mdio with md_fwheads := heads } }

/-- Embeds `Builder::sectors_per_track`. -/
def Builder.sectors_per_track (b : Builder) (sectors : Int) : Builder :=
  { b with mdio := { b.mdio with md_fwsectors := sectors } }

/-- Embeds `Builder::sectorsize`. -/
def Builder.sectorsize (b : Builder) (sectorsize : Nat) : Builder :=
  { b with mdio := { b.mdio with md_sectorsize := sectorsize } }

/-- Embeds `Builder::size` (an `off_t`, i.e. signed 64-bit, argument). -/
def Builder.size (b : Builder) (size : Int) : Builder :=
  { b with mdio := { b.mdio with md_mediasize := size } }

/-- Embeds `Builder::label`: the label bytes are copied into a fresh buffer
and `resize`d to `PATH_MAX` (padding with zeros, or truncating).  Named with
a prime because the structure field is already called `label`. -/
def Builder.label' (b : Builder) (l : List Nat) : Builder :=
  { b with label := some (padResize l PATH_MAX) }

/-- The `md_unit := u` half of `Builder::unit`. -/
def Builder.withUnit (b : Builder) (u : Nat) : Builder :=
  { b with mdio := { b.mdio with md_unit := u } }

/-- Embeds `Builder::unit`: stores the requested unit, then clears the
auto-assign bit (`&= !MD_AUTOUNIT`). -/
def Builder.unit (b : Builder) (u : Nat) : Builder :=
  (b.withUnit u).setOpt MD_AUTOUNIT false

/-! ### The kernel model and finalization -/

/-- The external world seen by the crate: the result of opening
`/dev/mdctl`, of reading a backing file's metadata (its byte length), and of
the three ioctls.  Errors are errno values. -/
structure Kernel where
  openMdctl : Except Nat Unit
  metadata : List Nat → Except Nat Nat
  mdiocattach : md_ioctl → Except Nat md_ioctl
  mdiocdetach : md_ioctl → Except Nat Unit
  mdiocresize : md_ioctl → Except Nat Unit

/-- A device handle (struct `Md` of src/lib.rs). -/
structure Md where
  name : String
  path : String
  unit : Nat
deriving Repr, DecidableEq

/-- The record `Builder::create` passes to the attach ioctl, given the
backing file's byte length `fsize` (only consulted for vnode builders): fill
the media size from the file when no size was stored, install the padded
path buffer, and install the label pointer when a label was set. -/
def Builder.finalizeMdio (b : Builder) (fsize : Nat) : md_ioctl :=
  let m1 : md_ioctl :=
    match b.filename with
    | some filename =>
      let m0 := if b.mdio.md_mediasize = 0
                then { b.mdio with md_mediasize := u64_to_i64 fsize }
                else b.mdio
      { m0 with md_file := some (padResize filename PATH_MAX) }
    | none => b.mdio
  match b.label with
  | some l => { m1 with md_label := some l }
  | none => m1

/-- The tail of `Builder::create`: issue the attach ioctl and build the
handle from the (possibly kernel-rewritten) unit number. -/
def Kernel.attachResult (k : Kernel) (m : md_ioctl) : Except Nat Md :=
  match k.mdiocattach m with
  | .error e => .error e
  | .ok out =>
    let name := "md" ++ toString out.md_unit
    .ok { name := name, path := "/dev/" ++ name, unit := out.md_unit }

/-- Embeds `Builder::create`: open the control device, read the backing
file's metadata when one was set, then attach. -/
def Builder.create (b : Builder) (k : Kernel) : Except Nat Md :=
  match k.openMdctl with
  | .error e => .error e
  | .ok _ =>
    match b.filename with
    | some filename =>
      match k.metadata filename with
      | .error e => .error e
      | .ok fsize => k.attachResult (b.finalizeMdio fsize)
    | none => k.attachResult (b.finalizeMdio 0)

/-! ### Device-handle operations -/

/-- The minimal record `Md::detach` passes to the detach ioctl. -/
def Md.detachMdio (md : Md) (force : Bool) : md_ioctl :=
  { md_version := MDIOVERSION
    md_unit := md.unit
    md_type := 0
    md_file := none
    md_mediasize := 0
    md_sectorsize := 0
    md_options := if force then MD_FORCE else 0
    md_base := 0
    md_fwheads := 0
    md_fwsectors := 0
    md_label := none
    md_pad := List.replicate MDNPAD 0 }

/-- Embeds `Md::detach`: open the control device and issue the detach ioctl
with the minimal record. -/
def Md.detach (md : Md) (k : Kernel) (force : Bool) : Except Nat Unit :=
  match k.openMdctl with
  | .error e => .error e
  | .ok _ => k.mdiocdetach (md.detachMdio force)

/-- The minimal record `Md::resize` passes to the resize ioctl: all fields
zero except version, unit and the new size, plus the force bit on demand. -/
def Md.resizeMdio (md : Md) (newsize : Int) (force : Bool) : md_ioctl :=
  let m : md_ioctl :=
    { md_version := MDIOVERSION
      md_unit := md.unit
      md_type := 0
      md_file := none
      md_mediasize := newsize
      md_sectorsize := 0
      md_options := 0
      md_base := 0
      md_fwheads := 0
      md_fwsectors := 0
      md_label := none
      md_pad := List.replicate MDNPAD 0 }
  if force then { m with md_options := m.md_options ||| MD_FORCE } else m

/-- Embeds `Md::resize`. -/
def Md.resize (md : Md) (k : Kernel) (newsize : Int) (force : Bool) : Except Nat Unit :=
  match k.openMdctl with
  | .error e => .error e
  | .ok _ => k.mdiocresize (md.resizeMdio newsize force)

/-- Result of `Md::try_destroy`, together with whether `std::mem::forget`
ran (when it did, the destructor is disarmed and will never run). -/
structure TryDestroyResult where
  result : Except (Md × Nat) Unit
  forgotten : Bool
deriving Repr

/-- Embeds `Md::try_destroy`: a non-forced detach; on success the handle is
forgotten (destructor disarmed), on failure the untouched handle is handed
back with the error. -/
def Md.try_destroy (md : Md) (k : Kernel) : TryDestroyResult :=
  match md.detach k false with
  | .ok _ => { result := .ok (), forgotten := true }
  | .error e => { result := .error (md, e), forgotten := false }

/-- Outcome of the destructor: clean detach, a fatal process failure
(`expect` panicking), or a suppressed error during an ongoing unwind. -/
inductive DropOutcome where
  | normal
  | fatal (e : Nat)
  | suppressed (e : Nat)
deriving Repr, DecidableEq

/-- Embeds `impl Drop for Md`: a forced detach, unconditionally; on failure,
fatal unless the thread is already panicking, in which case the error is
dropped. -/
def Md.dropRun (md : Md) (k : Kernel) (panicking : Bool) : DropOutcome :=
  match md.detach k true, panicking with
  | .ok _, _ => .normal
  | .error e, false => .fatal e
  | .error e, true => .suppressed e

/-- What happens after `try_destroy` if the caller immediately discards the
returned value: the destructor runs only when the handle was not forgotten. -/
def Md.dropAfterTryDestroy (md : Md) (k : Kernel) (panicking : Bool) : Option DropOutcome :=
  let r := md.try_destroy k
  if r.forgotten then none else some (md.dropRun k panicking)

/-! ### Bitwise helper lemmas -/

theorem land_lor_distrib (x y z : Nat) : (x ||| y) &&& z = (x &&& z) ||| (y &&& z) := by
  refine Nat.eq_of_testBit_eq fun i => ?_
  simp only [Nat.testBit_lor, Nat.testBit_land]
  cases x.testBit i <;> cases y.testBit i <;> cases z.testBit i <;> rfl

theorem lor_right_comm (o a c : Nat) : (o ||| a) ||| c = (o ||| c) ||| a := by
  rw [Nat.lor_assoc, Nat.lor_comm a c, ← Nat.lor_assoc]

theorem land_right_comm (o a c : Nat) : (o &&& a) &&& c = (o &&& c) &&& a := by
  rw [Nat.land_assoc, Nat.land_comm a c, ← Nat.land_assoc]

theorem lor_land_exch (o a k : Nat) (h : a &&& k = a) : (o ||| a) &&& k = (o &&& k) ||| a := by
  rw [land_lor_distrib, h]

theorem land_land_absorb (o k c : Nat) (h : c &&& k = c) :
    ((o &&& k) &&& c) = o &&& c := by
  rw [Nat.land_assoc, Nat.land_comm k c, h]

theorem setOpt_eq_true (b : Builder) (mask : Nat) :
    b.setOpt mask true
      = { b with mdio := { b.mdio with md_options := b.mdio.md_options ||| mask } } := rfl

theorem setOpt_eq_false (b : Builder) (mask : Nat) :
    b.setOpt mask false
      = { b with mdio := { b.mdio with md_options := b.mdio.md_options &&& u32not mask } } := rfl

theorem Builder.setOpt_setOpt_comm (b : Builder) (a c : Nat) (x y : Bool)
    (h1 : a &&& u32not c = a) (h2 : c &&& u32not a = c) :
    (b.setOpt a x).setOpt c y = (b.setOpt c y).setOpt a x := by
  cases x <;> cases y <;>
    simp only [setOpt_eq_true, setOpt_eq_false] <;> congr 1 <;> congr 1
  · exact land_right_comm _ _ _
  · exact (lor_land_exch b.mdio.md_options c (u32not a) h2).symm
  · exact lor_land_exch b.mdio.md_options a (u32not c) h1
  · exact lor_right_comm _ _ _

theorem Builder.setOpt_withUnit (b : Builder) (m u : Nat) (x : Bool) :
    (b.setOpt m x).withUnit u = (b.withUnit u).setOpt m x := by
  cases x <;> rfl

/-! ### Structural lemmas about finalization -/

theorem Builder.finalizeMdio_options (b : Builder) (f : Nat) :
    (b.finalizeMdio f).md_options = b.mdio.md_options := by
  obtain ⟨fn, lb, m⟩ := b
  cases fn <;> cases lb <;> simp only [Builder.finalizeMdio] <;>
    first
    | rfl
    | (split <;> rfl)

theorem Builder.finalizeMdio_unit (b : Builder) (f : Nat) :
    (b.finalizeMdio f).md_unit = b.mdio.md_unit := by
  obtain ⟨fn, lb, m⟩ := b
  cases fn <;> cases lb <;> simp only [Builder.finalizeMdio] <;>
    first
    | rfl
    | (split <;> rfl)

theorem Builder.create_none (b : Builder) (k : Kernel)
    (hopen : k.openMdctl = .ok ()) (hf : b.filename = none) :
    b.create k = k.attachResult (b.finalizeMdio 0) := by
  unfold Builder.create
  rw [hopen, hf]

theorem Builder.create_some (b : Builder) (k : Kernel) (fn : List Nat) (fsize : Nat)
    (hopen : k.openMdctl = .ok ()) (hf : b.filename = some fn)
    (hmeta : k.metadata fn = .ok fsize) :
    b.create k = k.attachResult (b.finalizeMdio fsize) := by
  unfold Builder.create
  rw [hopen, hf]
  dsimp only
  rw [hmeta]

theorem land_zero (n : Nat) : n &&& 0 = 0 := by
  refine Nat.eq_of_testBit_eq fun i => ?_
  simp [Nat.testBit_land]

theorem lor_land_self (m a : Nat) : m ||| (a &&& m) = m := by
  refine Nat.eq_of_testBit_eq fun i => ?_
  simp only [Nat.testBit_lor, Nat.testBit_land]
  cases m.testBit i <;> cases a.testBit i <;> rfl

theorem padResize_of_lt (v : List Nat) (n : Nat) (h : n < v.length) :
    padResize v n = v.take n := by
  unfold padResize
  rw [if_neg (Nat.not_le.mpr h)]

/-! ### Flag membership -/

/-- The bits of `m` are all set in the mask `o`. -/
def hasFlag (o m : Nat) : Prop := o &&& m = m

instance (o m : Nat) : Decidable (hasFlag o m) :=
  inferInstanceAs (Decidable (o &&& m = m))

theorem hasFlag_lor (o a m : Nat) (h : hasFlag o m) : hasFlag (o ||| a) m := by
  unfold hasFlag at *
  rw [land_lor_distrib, h, lor_land_self]

theorem hasFlag_land (o k m : Nat) (hk : m &&& k = m) (h : hasFlag o m) :
    hasFlag (o &&& k) m := by
  unfold hasFlag at *
  rw [Nat.land_assoc, Nat.land_comm k m, hk, h]

theorem Builder.setOpt_hasFlag (b : Builder) (mask : Nat) (x : Bool) (m : Nat)
    (hk : m &&& u32not mask = m) (h : hasFlag b.mdio.md_options m) :
    hasFlag (b.setOpt mask x).mdio.md_options m := by
  cases x
  · exact hasFlag_land _ _ _ hk h
  · exact hasFlag_lor _ _ _ h

/-! ### Modifier invocations

A reified builder-modifier call with its argument, used to state
order-independence of distinct modifiers and preservation of default
flags under arbitrary modifier sequences. -/

/-- One chained builder-method invocation of src/lib.rs with its argument. -/
inductive Modifier where
  | async_ (x : Bool)
  | cache (x : Bool)
  | compress (x : Bool)
  | heads_per_cylinder (v : Int)
  | label' (l : List Nat)
  | mustdealloc (x : Bool)
  | readonly (x : Bool)
  | reserve (x : Bool)
  | sectors_per_track (v : Int)
  | sectorsize (v : Nat)
  | size (v : Int)
  | unit (u : Nat)
  | verify (x : Bool)
deriving Repr, DecidableEq

/-- Apply a modifier to a builder, dispatching to the embedded method. -/
def Modifier.apply : Modifier → Builder → Builder
  | .async_ x, b => b.async_ x
  | .cache x, b => b.cache x
  | .compress x, b => b.compress x
  | .heads_per_cylinder v, b => b.heads_per_cylinder v
  | .label' l, b => b.label' l
  | .mustdealloc x, b => b.mustdealloc x
  | .readonly x, b => b.readonly x
  | .reserve x, b => b.reserve x
  | .sectors_per_track v, b => b.sectors_per_track v
  | .sectorsize v, b => b.sectorsize v
  | .size v, b => b.size v
  | .unit u, b => b.unit u
  | .verify x, b => b.verify x

/-- Which builder method a modifier invokes, ignoring its argument. -/
def Modifier.tag : Modifier → Nat
  | .async_ _ => 0
  | .cache _ => 1
  | .compress _ => 2
  | .heads_per_cylinder _ => 3
  | .label' _ => 4
  | .mustdealloc _ => 5
  | .readonly _ => 6
  | .reserve _ => 7
  | .sectors_per_track _ => 8
  | .sectorsize _ => 9
  | .size _ => 10
  | .unit _ => 11
  | .verify _ => 12

/-- Apply a whole chain of modifiers left to right. -/
def applyAll (ms : List Modifier) (b : Builder) : Builder :=
  ms.foldl (fun b m => m.apply b) b

theorem Modifier.apply_preserves_compress (m : Modifier) (b : Builder)
    (hm : m ≠ Modifier.compress false)
    (h : hasFlag b.mdio.md_options MD_COMPRESS) :
    hasFlag (m.apply b).mdio.md_options MD_COMPRESS := by
  cases m with
  | async_ x => exact b.setOpt_hasFlag MD_ASYNC x MD_COMPRESS (by decide) h
  | cache x => exact b.setOpt_hasFlag MD_CACHE x MD_COMPRESS (by decide) h
  | compress x =>
    cases x
    · exact absurd rfl hm
    · exact hasFlag_lor _ _ _ h
  | heads_per_cylinder v => exact h
  | label' l => exact h
  | mustdealloc x => exact b.setOpt_hasFlag MD_MUSTDEALLOC x MD_COMPRESS (by decide) h
  | readonly x => exact b.setOpt_hasFlag MD_READONLY x MD_COMPRESS (by decide) h
  | reserve x => exact b.setOpt_hasFlag MD_RESERVE x MD_COMPRESS (by decide) h
  | sectors_per_track v => exact h
  | sectorsize v => exact h
  | size v => exact h
  | unit u => exact hasFlag_land b.mdio.md_options (u32not MD_AUTOUNIT) MD_COMPRESS (by decide) h
  | verify x => exact b.setOpt_hasFlag MD_VERIFY x MD_COMPRESS (by decide) h

theorem applyAll_preserves_compress (ms : List Modifier) (b : Builder)
    (hms : ∀ m ∈ ms, m ≠ Modifier.compress false)
    (h : hasFlag b.mdio.md_options MD_COMPRESS) :
    hasFlag (applyAll ms b).mdio.md_options MD_COMPRESS := by
  induction ms generalizing b with
  | nil => exact h
  | cons m ms ih =>
    exact ih (m.apply b) (fun x hx => hms x (List.mem_cons_of_mem m hx))
      (m.apply_preserves_compress b (hms m (List.mem_cons_self m ms)) h)

/-! ### Plumbing lemmas for create -/

theorem Builder.create_open_err (b : Builder) (k : Kernel) (e : Nat)
    (hopen : k.openMdctl = .error e) : b.create k = .error e := by
  unfold Builder.create
  rw [hopen]

theorem Builder.create_some_err (b : Builder) (k : Kernel) (fn : List Nat) (e : Nat)
    (hopen : k.openMdctl = .ok ()) (hf : b.filename = some fn)
    (hmeta : k.metadata fn = .error e) : b.create k = .error e := by
  unfold Builder.create
  rw [hopen, hf]
  dsimp only
  rw [hmeta]

theorem Kernel.attachResult_unit (k : Kernel) (m : md_ioctl)
    (hker : ∀ mi out, k.mdiocattach mi = .ok out →
      mi.md_options &&& MD_AUTOUNIT = 0 → out.md_unit = mi.md_unit)
    (hopt : m.md_options &&& MD_AUTOUNIT = 0) :
    ∀ md, k.attachResult m = .ok md → md.unit = m.md_unit := by
  intro md h
  unfold Kernel.attachResult at h
  cases hat : k.mdiocattach m with
  | error e => rw [hat] at h; exact absurd h (by simp)
  | ok out =>
    rw [hat] at h
    simp only [Except.ok.injEq] at h
    rw [← h]
    exact hker m out hat hopt

theorem Builder.create_unit_of_autounit_clear (b : Builder) (k : Kernel)
    (hker : ∀ mi out, k.mdiocattach mi = .ok out →
      mi.md_options &&& MD_AUTOUNIT = 0 → out.md_unit = mi.md_unit)
    (hopt : b.mdio.md_options &&& MD_AUTOUNIT = 0) :
    ∀ md, b.create k = .ok md → md.unit = b.mdio.md_unit := by
  intro md hc
  have hopt' : ∀ f, (b.finalizeMdio f).md_options &&& MD_AUTOUNIT = 0 := fun f => by
    rw [Builder.finalizeMdio_options]; exact hopt
  cases hopen : k.openMdctl with
  | error e =>
    rw [Builder.create_open_err b k e hopen] at hc
    exact absurd hc (by simp)
  | ok u' =>
    cases u'
    cases hf : b.filename with
    | none =>
      rw [Builder.create_none b k hopen hf] at hc
      have := Kernel.attachResult_unit k (b.finalizeMdio 0) hker (hopt' 0) md hc
      rwa [Builder.finalizeMdio_unit] at this
    | some fn =>
      cases hmeta : k.metadata fn with
      | error e =>
        rw [Builder.create_some_err b k fn e hopen hf hmeta] at hc
        exact absurd hc (by simp)
      | ok fsize =>
        rw [Builder.create_some b k fn fsize hopen hf hmeta] at hc
        have := Kernel.attachResult_unit k (b.finalizeMdio fsize) hker (hopt' fsize) md hc
        rwa [Builder.finalizeMdio_unit] at this

/-! ### Concrete fixtures used by witnesses and counterexamples -/

/-- A kernel in which every call succeeds and attach echoes the record back
unchanged (so the unit stays as requested). -/
def kOk : Kernel :=
  { openMdctl := .ok ()
    metadata := fun _ => .ok 5
    mdiocattach := fun m => .ok m
    mdiocdetach := fun _ => .ok ()
    mdiocresize := fun _ => .ok () }

/-- A kernel in which detach fails with EBUSY (errno 16). -/
def kBusy : Kernel := { kOk with mdiocdetach := fun _ => .error 16 }

/-- A sample attached handle. -/
def md0 : Md := { name := "md0", path := "/dev/md0", unit := 0 }

/-- A sample backing path, the bytes of "/tmp". -/
def p0 : List Nat := [47, 116, 109, 112]

/-! ### Claim theorems -/

/-- C2: `try_destroy` on success consumes the handle (it is forgotten, so the
destructor never also runs — no second detach), and on failure returns the
original handle unchanged together with the underlying error. -/
theorem C2_try_destroy_consumes_or_returns (k : Kernel) (md : Md) :
    (md.detach k false = .ok () →
      (md.try_destroy k).result = .ok () ∧
      (md.try_destroy k).forgotten = true ∧
      ∀ panicking, md.dropAfterTryDestroy k panicking = none) ∧
    (∀ e, md.detach k false = .error e →
      (md.try_destroy k).result = .error (md, e) ∧
      (md.try_destroy k).forgotten = false) := by
  constructor
  · intro h
    refine ⟨?_, ?_, ?_⟩ <;>
      simp [Md.try_destroy, Md.dropAfterTryDestroy, h]
  · intro e h
    constructor <;> simp [Md.try_destroy, h]

/-- C2 witness: with a kernel whose detach succeeds the handle is consumed;
with a busy kernel the very same handle comes back with errno 16. -/
theorem C2_witness :
    ((md0.try_destroy kOk).result = .ok () ∧ (md0.try_destroy kOk).forgotten = true ∧
      md0.dropAfterTryDestroy kOk false = none) ∧
    ((md0.try_destroy kBusy).result = .error (md0, 16) ∧
      (md0.try_destroy kBusy).forgotten = false) := by
  have h1 := (C2_try_destroy_consumes_or_returns kOk md0).1 rfl
  have h2 := (C2_try_destroy_consumes_or_returns kBusy md0).2 16 rfl
  exact ⟨⟨h1.1, h1.2.1, h1.2.2 false⟩, h2⟩

/-- C3: the destructor performs a forced detach unconditionally (the record
carries the force bit); on failure it is fatal unless the thread is already
panicking, in which case the error is suppressed. -/
theorem C3_drop_forced_detach (k : Kernel) (md : Md) (panicking : Bool) :
    (md.detachMdio true).md_options = MD_FORCE ∧
    (md.detach k true = .ok () → md.dropRun k panicking = .normal) ∧
    (∀ e, md.detach k true = .error e →
      md.dropRun k panicking = if panicking then .suppressed e else .fatal e) := by
  refine ⟨rfl, ?_, ?_⟩
  · intro h
    cases panicking <;> simp [Md.dropRun, h]
  · intro e h
    cases panicking <;> simp [Md.dropRun, h]

/-- C3 witness: concrete outcomes for a clean detach, a busy detach outside
an unwind (fatal) and a busy detach during an unwind (suppressed). -/
theorem C3_witness :
    md0.dropRun kOk false = .normal ∧
    md0.dropRun kBusy false = .fatal 16 ∧
    md0.dropRun kBusy true = .suppressed 16 := by
  refine ⟨(C3_drop_forced_detach kOk md0 false).2.1 rfl, ?_, ?_⟩
  · have h := (C3_drop_forced_detach kBusy md0 false).2.2 16 rfl
    simpa using h
  · have h := (C3_drop_forced_detach kBusy md0 true).2.2 16 rfl
    simpa using h

/-- C4 counterexample: the swap constructor does NOT leave the option mask
at the base default — it adds the cluster bit, exactly like vnode. -/
theorem C4_counterexample_swap_adds_cluster :
    (Builder.swap 100).mdio.md_options ≠ MD_AUTOUNIT ||| MD_COMPRESS ∧
    (Builder.swap 100).mdio.md_options = (MD_AUTOUNIT ||| MD_COMPRESS) ||| MD_CLUSTER := by
  constructor
  · decide
  · rfl

/-- C4 (amended): the File (vnode) AND Swap constructors add the cluster
flag to the option bitmask; the Memory (malloc) and Null constructors leave
it at the base default with no kind-specific flags. -/
theorem C4_amended_constructor_options (s : Nat) (p : List Nat) :
    (Builder.vnode p).mdio.md_options = (MD_AUTOUNIT ||| MD_COMPRESS) ||| MD_CLUSTER ∧
    (Builder.swap s).mdio.md_options = (MD_AUTOUNIT ||| MD_COMPRESS) ||| MD_CLUSTER ∧
    (Builder.malloc s).mdio.md_options = MD_AUTOUNIT ||| MD_COMPRESS ∧
    (Builder.null s).mdio.md_options = MD_AUTOUNIT ||| MD_COMPRESS :=
  ⟨rfl, rfl, rfl, rfl⟩

/-- C7: resize and detach issue records in which only version, unit, media
size and the (optional) force bit are populated; every other field is zero
or null. -/
theorem C7_minimal_records (md : Md) (newsize : Int) (force : Bool) :
    md.resizeMdio newsize force =
      { md_version := MDIOVERSION
        md_unit := md.unit
        md_type := 0
        md_file := none
        md_mediasize := newsize
        md_sectorsize := 0
        md_options := if force then MD_FORCE else 0
        md_base := 0
        md_fwheads := 0
        md_fwsectors := 0
        md_label := none
        md_pad := List.replicate MDNPAD 0 } ∧
    md.detachMdio force =
      { md_version := MDIOVERSION
        md_unit := md.unit
        md_type := 0
        md_file := none
        md_mediasize := 0
        md_sectorsize := 0
        md_options := if force then MD_FORCE else 0
        md_base := 0
        md_fwheads := 0
        md_fwsectors := 0
        md_label := none
        md_pad := List.replicate MDNPAD 0 } := by
  constructor
  · cases force <;> simp [Md.resizeMdio, Nat.zero_or]
  · rfl

/-- C10: the malloc, null and swap constructors store the unsigned 64-bit
size by two's-complement cast into the signed media-size field, without any
range check: any size at or above 2^63 is stored as size - 2^64, a negative
value. -/
theorem C10_size_cast_wraps (size : Nat) (h1 : 2 ^ 63 ≤ size) (h2 : size < 2 ^ 64) :
    (Builder.malloc size).mdio.md_mediasize = (size : Int) - 2 ^ 64 ∧
    (Builder.null size).mdio.md_mediasize = (size : Int) - 2 ^ 64 ∧
    (Builder.swap size).mdio.md_mediasize = (size : Int) - 2 ^ 64 ∧
    (Builder.malloc size).mdio.md_mediasize < 0 := by
  have hm : size % 2 ^ 64 = size := Nat.mod_eq_of_lt h2
  have hcast : u64_to_i64 size = (size : Int) - 2 ^ 64 := by
    unfold u64_to_i64
    rw [hm, if_neg (Nat.not_lt.mpr h1)]
  refine ⟨hcast, hcast, hcast, ?_⟩
  have h2i : (size : Int) < 2 ^ 64 := by exact_mod_cast h2
  have : (Builder.malloc size).mdio.md_mediasize = (size : Int) - 2 ^ 64 := hcast
  rw [this]
  linarith

/-- C10 witness: at size 2^63 the stored media size is 2^63 - 2^64, which is
negative. -/
theorem C10_witness :
    (Builder.malloc (2 ^ 63)).mdio.md_mediasize = (2 ^ 63 : Int) - 2 ^ 64 ∧
    (Builder.malloc (2 ^ 63)).mdio.md_mediasize < 0 := by
  have h := C10_size_cast_wraps (2 ^ 63) (le_refl _) (by norm_num)
  exact ⟨h.1, h.2.2.2⟩

/-- The handle value `create kOk` produces for an explicit unit 5. -/
def mdW5 : Md :=
  { name := "md" ++ toString 5, path := "/dev/" ++ ("md" ++ toString 5), unit := 5 }

/-- C5: `unit u` stores `u` in the record and clears the auto-assign bit, so
the two are never both in effect; and (with the kernel modelled per the
spec as rewriting the unit only when auto-assign is requested) a successful
create returns a handle whose unit equals `u`. -/
theorem C5_explicit_unit (b : Builder) (u : Nat) (k : Kernel)
    (hker : ∀ mi out, k.mdiocattach mi = .ok out →
      mi.md_options &&& MD_AUTOUNIT = 0 → out.md_unit = mi.md_unit) :
    (b.unit u).mdio.md_unit = u ∧
    (b.unit u).mdio.md_options &&& MD_AUTOUNIT = 0 ∧
    ∀ md, (b.unit u).create k = .ok md → md.unit = u := by
  have hopt : (b.unit u).mdio.md_options &&& MD_AUTOUNIT = 0 := by
    show (b.mdio.md_options &&& u32not MD_AUTOUNIT) &&& MD_AUTOUNIT = 0
    rw [Nat.land_assoc, (by decide : u32not MD_AUTOUNIT &&& MD_AUTOUNIT = 0)]
    exact land_zero _
  refine ⟨rfl, hopt, ?_⟩
  intro md hc
  exact Builder.create_unit_of_autounit_clear (b.unit u) k hker hopt md hc

/-- C5 witness: with an echoing kernel, unit 5 is stored, auto-assign is
cleared, and the created handle reports unit 5. -/
theorem C5_witness :
    ((Builder.null 100).unit 5).mdio.md_unit = 5 ∧
    ((Builder.null 100).unit 5).mdio.md_options &&& MD_AUTOUNIT = 0 ∧
    mdW5.unit = 5 := by
  have h := C5_explicit_unit (Builder.null 100) 5 kOk
    (fun mi out hh _ => by injection hh with h2; rw [← h2])
  exact ⟨h.1, h.2.1, h.2.2 mdW5 rfl⟩

/-- C9: every constructor returns a builder with both the auto-unit and the
compression flags set, and the compression bit is still set in the attach
record after any modifier chain that never calls compress(false). -/
theorem C9_compress_default (s : Nat) (p : List Nat) (ms : List Modifier) (fsize : Nat)
    (hms : ∀ m ∈ ms, m ≠ Modifier.compress false) :
    (hasFlag (Builder.malloc s).mdio.md_options MD_AUTOUNIT ∧
     hasFlag (Builder.malloc s).mdio.md_options MD_COMPRESS) ∧
    (hasFlag (Builder.null s).mdio.md_options MD_AUTOUNIT ∧
     hasFlag (Builder.null s).mdio.md_options MD_COMPRESS) ∧
    (hasFlag (Builder.swap s).mdio.md_options MD_AUTOUNIT ∧
     hasFlag (Builder.swap s).mdio.md_options MD_COMPRESS) ∧
    (hasFlag (Builder.vnode p).mdio.md_options MD_AUTOUNIT ∧
     hasFlag (Builder.vnode p).mdio.md_options MD_COMPRESS) ∧
    hasFlag ((applyAll ms (Builder.malloc s)).finalizeMdio fsize).md_options MD_COMPRESS ∧
    hasFlag ((applyAll ms (Builder.vnode p)).finalizeMdio fsize).md_options MD_COMPRESS := by
  have hBase1 : hasFlag (MD_AUTOUNIT ||| MD_COMPRESS) MD_AUTOUNIT := by decide
  have hBase2 : hasFlag (MD_AUTOUNIT ||| MD_COMPRESS) MD_COMPRESS := by decide
  have hCl1 : hasFlag ((MD_AUTOUNIT ||| MD_COMPRESS) ||| MD_CLUSTER) MD_AUTOUNIT := by decide
  have hCl2 : hasFlag ((MD_AUTOUNIT ||| MD_COMPRESS) ||| MD_CLUSTER) MD_COMPRESS := by decide
  refine ⟨⟨hBase1, hBase2⟩, ⟨hBase1, hBase2⟩, ⟨hCl1, hCl2⟩, ⟨hCl1, hCl2⟩, ?_, ?_⟩
  · rw [Builder.finalizeMdio_options]
    exact applyAll_preserves_compress ms _ hms hBase2
  · rw [Builder.finalizeMdio_options]
    exact applyAll_preserves_compress ms _ hms hCl2

/-- C9 witness: a malloc builder run through a reserve(true) modifier still
carries the compression bit into the attach record. -/
theorem C9_witness :
    hasFlag ((applyAll [Modifier.reserve true] (Builder.malloc 1)).finalizeMdio 0).md_options
      MD_COMPRESS :=
  (C9_compress_default 1 p0 [Modifier.reserve true] 0 (by decide)).2.2.2.2.1

theorem u64_to_i64_of_lt (n : Nat) (h : n < 2 ^ 63) : u64_to_i64 n = (n : Int) := by
  unfold u64_to_i64
  rw [Nat.mod_eq_of_lt (lt_trans h (by norm_num)), if_pos h]

theorem Builder.finalizeMdio_vnode_size (p : List Nat) (s : Int) (fsize : Nat) (hs : s ≠ 0) :
    (((Builder.vnode p).size s).finalizeMdio fsize).md_mediasize = s := by
  unfold Builder.finalizeMdio
  dsimp only [Builder.vnode, Builder.size, Builder.new]
  rw [if_neg hs]

theorem Builder.finalizeMdio_label (b : Builder) (l : List Nat) (f : Nat)
    (hb : b.label = some l) : (b.finalizeMdio f).md_label = some l := by
  obtain ⟨fn, lb, m⟩ := b
  have hb' : lb = some l := hb
  subst hb'
  cases fn <;> rfl

/-- C6 counterexample: with an explicit size override of 0 on a vnode
builder whose backing file is 5 bytes long, the record passed to the attach
call carries media size 5, not the override 0 — create treats a stored 0 as
"no size set". -/
theorem C6_counterexample_zero_override :
    ((Builder.vnode p0).size 0).mdio.md_mediasize = 0 ∧
    (((Builder.vnode p0).size 0).finalizeMdio 5).md_mediasize = 5 ∧
    (((Builder.vnode p0).size 0).finalizeMdio 5).md_mediasize ≠
      ((Builder.vnode p0).size 0).mdio.md_mediasize ∧
    ((Builder.vnode p0).size 0).create kOk =
      kOk.attachResult (((Builder.vnode p0).size 0).finalizeMdio 5) := by
  refine ⟨rfl, by decide, by decide, ?_⟩
  exact Builder.create_some _ kOk p0 5 rfl rfl rfl

/-- C6 (amended): for a successfully finalized vnode configuration, the
media size passed to the attach call is the backing file's byte length when
no size was stored (the field is 0), and the override when a nonzero
override was set. -/
theorem C6_amended_vnode_media_size (p : List Nat) (fsize : Nat) (s : Int) (k : Kernel)
    (hfs : fsize < 2 ^ 63) (hs : s ≠ 0)
    (hopen : k.openMdctl = .ok ()) (hmeta : k.metadata p = .ok fsize) :
    ((Builder.vnode p).finalizeMdio fsize).md_mediasize = (fsize : Int) ∧
    (((Builder.vnode p).size s).finalizeMdio fsize).md_mediasize = s ∧
    (Builder.vnode p).create k = k.attachResult ((Builder.vnode p).finalizeMdio fsize) ∧
    ((Builder.vnode p).size s).create k =
      k.attachResult (((Builder.vnode p).size s).finalizeMdio fsize) := by
  refine ⟨?_, Builder.finalizeMdio_vnode_size p s fsize hs, ?_, ?_⟩
  · show u64_to_i64 fsize = (fsize : Int)
    exact u64_to_i64_of_lt fsize hfs
  · exact Builder.create_some _ k p fsize hopen rfl hmeta
  · exact Builder.create_some _ k p fsize hopen rfl hmeta

/-- C6 witness: a 5-byte backing file gives media size 5 with no override
and media size 7 with the override 7. -/
theorem C6_witness :
    ((Builder.vnode p0).finalizeMdio 5).md_mediasize = (5 : Int) ∧
    (((Builder.vnode p0).size 7).finalizeMdio 5).md_mediasize = 7 := by
  have h := C6_amended_vnode_media_size p0 5 7 kOk (by norm_num) (by decide) rfl rfl
  exact ⟨h.1, h.2.1⟩

/-- A label longer than the fixed buffer: 1025 bytes of 7. -/
def lLong : List Nat := List.replicate 1025 7

/-- A path longer than the fixed buffer: 1025 bytes of 47. -/
def pLong : List Nat := List.replicate 1025 47

/-- C1 counterexample: a 1025-byte label is silently truncated to the
1024-byte buffer (the stored buffer differs from the label), and create
still reaches the attach call instead of failing with a validation error. -/
theorem C1_counterexample_oversized_label :
    ((Builder.null 100).label' lLong).label = some (List.replicate 1024 7) ∧
    List.replicate 1024 (7 : Nat) ≠ lLong ∧
    ((Builder.null 100).label' lLong).create kOk =
      kOk.attachResult (((Builder.null 100).label' lLong).finalizeMdio 0) ∧
    (((Builder.null 100).label' lLong).create kOk).isOk = true := by
  refine ⟨by decide, by decide, Builder.create_none _ kOk rfl rfl, rfl⟩

/-- C1 (amended): an oversized path or label is silently truncated to the
buffer capacity (the platform's maximum path length) and finalization
proceeds to the kernel attach call; no local validation error is raised. -/
theorem C1_amended_silent_truncation (s : Nat) (l p : List Nat) (k : Kernel) (fsize : Nat)
    (hl : PATH_MAX < l.length) (hp : PATH_MAX < p.length)
    (hopen : k.openMdctl = .ok ()) (hmeta : k.metadata p = .ok fsize) :
    ((Builder.null s).label' l).label = some (l.take PATH_MAX) ∧
    (((Builder.null s).label' l).finalizeMdio 0).md_label = some (l.take PATH_MAX) ∧
    ((Builder.null s).label' l).create k =
      k.attachResult (((Builder.null s).label' l).finalizeMdio 0) ∧
    ((Builder.vnode p).finalizeMdio fsize).md_file = some (p.take PATH_MAX) ∧
    (Builder.vnode p).create k = k.attachResult ((Builder.vnode p).finalizeMdio fsize) := by
  have hpad : padResize l PATH_MAX = l.take PATH_MAX := padResize_of_lt l PATH_MAX hl
  have hpadp : padResize p PATH_MAX = p.take PATH_MAX := padResize_of_lt p PATH_MAX hp
  refine ⟨?_, ?_, ?_, ?_, ?_⟩
  · show some (padResize l PATH_MAX) = some (l.take PATH_MAX)
    rw [hpad]
  · rw [Builder.finalizeMdio_label _ (padResize l PATH_MAX) 0 rfl, hpad]
  · exact Builder.create_none _ k hopen rfl
  · show some (padResize p PATH_MAX) = some (p.take PATH_MAX)
    rw [hpadp]
  · exact Builder.create_some _ k p fsize hopen rfl hmeta

/-- C1 witness: a 1025-byte label and a 1025-byte path are both stored as
their first 1024 bytes. -/
theorem C1_witness :
    ((Builder.null 100).label' lLong).label = some (lLong.take PATH_MAX) ∧
    ((Builder.vnode pLong).finalizeMdio 5).md_file = some (pLong.take PATH_MAX) := by
  have h := C1_amended_silent_truncation 100 lLong pLong kOk 5
    (by decide) (by decide) rfl rfl
  exact ⟨h.1, h.2.2.2.1⟩

/-- C8: every pair of distinct builder modifiers, each with a fixed
argument, commutes: each modifier writes one field or one option bit (unit
additionally clearing only the auto-assign bit), with no cross-field
validation. -/
theorem C8_distinct_modifiers_commute (m1 m2 : Modifier) (b : Builder)
    (h : m1.tag ≠ m2.tag) :
    m1.apply (m2.apply b) = m2.apply (m1.apply b) := by
  cases m1 <;> cases m2 <;>
    first
    | exact absurd rfl h
    | rfl
    | (rename_i p q
       first
       | (cases p <;> rfl)
       | (cases q <;> rfl)
       | (cases p <;> cases q <;> rfl)
       | (simp only [Modifier.apply, Builder.async_, Builder.cache, Builder.compress,
           Builder.mustdealloc, Builder.readonly, Builder.reserve, Builder.verify,
           Builder.unit, Builder.setOpt_withUnit]
          apply Builder.setOpt_setOpt_comm <;> decide))

/-- C8 witness: async(true) and readonly(true) commute on a malloc builder. -/
theorem C8_witness :
    (Modifier.async_ true).apply ((Modifier.readonly true).apply (Builder.malloc 4)) =
      (Modifier.readonly true).apply ((Modifier.async_ true).apply (Builder.malloc 4)) :=
  C8_distinct_modifiers_commute (Modifier.async_ true) (Modifier.readonly true)
    (Builder.malloc 4) (by decide)

end Mdconfig
